import Mathlib

/-!
Shallow embedding of `src/scripts/flask_server.py` (Gem Generator Dashboard
Flask backend).  The server keeps a process-wide account list and a settings
record; the handlers `handle_settings`, `get_balance`, `generate_account`,
`export_accounts` and `clear_accounts` are modelled as pure state
transformers.  Outbound HTTP calls are modelled by oracles: one value of an
outcome type per call, covering every branch the Python code distinguishes.
-/

namespace FlaskServer

/-- Status of an account record: the Python dicts carry
`'status': 'success'` or `'status': 'failed'`. -/
inductive Status where
  | success
  | failed
deriving DecidableEq, Repr, BEq

/-- An account record, as built in `generate_account`.  Success records have
`sessionToken`/`gems` keys and no `error` key; failed records have an `error`
key and no `sessionToken`/`gems` keys — the absent keys are modelled with
`Option` (the export handler reads them with `.get(..., default)`). -/
structure Account where
  email : String
  password : String
  sessionToken : Option String
  gems : Option Int
  timestamp : String
  status : Status
  error : Option String
deriving DecidableEq, Repr

/-- The process-wide `settings` dict. -/
structure Settings where
  main_session_token : String
  local_id : String
  total_gems : Int
  generation_count : Nat
deriving DecidableEq, Repr

/-- The mutable server state: the `accounts` list (newest first) and the
`settings` dict. -/
structure ServerState where
  accounts : List Account
  settings : Settings
deriving DecidableEq, Repr

/-- Initial value of `settings` at module load. -/
def init_settings : Settings :=
  { main_session_token := ""
    local_id := ""
    total_gems := 0
    generation_count := 0 }

/-- Initial server state: `accounts = []` and the initial settings. -/
def init_state : ServerState :=
  { accounts := [], settings := init_settings }

/-- Number of records with status `success` in an account list. -/
def countSuccess (l : List Account) : Nat :=
  (l.filter (fun a => decide (a.status = Status.success))).length

/-! ### `/api/settings` (POST) — `handle_settings` -/

/-- A JSON request body for `POST /api/settings`, restricted to the keys the
claims mention.  `some v` means the key is present with value `v`; the
handler only ever reads `main_session_token` and `local_id`. -/
structure SettingsBody where
  main_session_token : Option String
  local_id : Option String
  total_gems : Option Int
  generation_count : Option Nat

/-- `handle_settings` on POST: for each of the keys `main_session_token` and
`local_id`, if present in the body, overwrite the settings field; everything
else is untouched. -/
def handle_settings (body : SettingsBody) (st : ServerState) : ServerState :=
  let s1 :=
    match body.main_session_token with
    | some v => { st.settings with main_session_token := v }
    | none => st.settings
  let s2 :=
    match body.local_id with
    | some v => { s1 with local_id := v }
    | none => s1
  { st with settings := s2 }

/-! ### `/api/clear` — `clear_accounts` -/

/-- `clear_accounts`: empty the account list, reset `generation_count` to 0,
return `success: true`. -/
def clear_accounts (st : ServerState) : ServerState × Bool :=
  ({ st with
      accounts := []
      settings := { st.settings with generation_count := 0 } },
   true)

/-! ### `/api/export` — `export_accounts` -/

/-- The list of text lines built by `export_accounts` before joining with
newlines: five lines per success-status record, nothing for failed ones. -/
def export_lines (accounts : List Account) : List String :=
  (accounts.filter (fun a => decide (a.status = Status.success))).flatMap fun acc =>
    ["Email: " ++ acc.email,
     "Password: " ++ acc.password,
     "Session Token: " ++ acc.sessionToken.getD "N/A",
     "Gems: " ++ toString (acc.gems.getD 0),
     "---"]

/-- `export_accounts`: the joined text block and the `count` field. -/
def export_accounts (accounts : List Account) : String × Nat :=
  (String.intercalate "\n" (export_lines accounts),
   (accounts.filter (fun a => decide (a.status = Status.success))).length)

/-- A line of the export block is an "Email:" line when it starts with the
characters `Email:`. -/
def isEmailLine (l : String) : Bool :=
  "Email:".data.isPrefixOf l.data

/-! ### `/api/balance` — `get_balance` -/

/-- The combined outcome of the one outbound call `get_balance` makes to the
backend `init_data` endpoint, one constructor per branch of the handler:
`ok g` when `response.json()` parses, `data.get('code') == 1` and
`data.get('data')` is truthy (`g` is `data['data'].get('gems', 0)`);
`invalid` when it parses but that test fails; `timeout` for
`requests.Timeout`; `exn msg` for any other exception (e.g. a JSON parse
failure), with `msg` its string rendering. -/
inductive BalanceOutcome where
  | ok (gems : Int)
  | invalid
  | timeout
  | exn (msg : String)
deriving DecidableEq, Repr

/-- The JSON body returned by `get_balance`, restricted to the keys the
handler writes: always `gems`; `increased`/`diff` only on the success path;
`error` on every other path. -/
structure BalanceResult where
  gems : Int
  increased : Option Bool
  diff : Option Int
  error : Option String
deriving DecidableEq, Repr

/-- `get_balance`: with no configured session token (Python falsiness of the
empty string) return `gems 0` with the "No session token configured" error
and do not contact the backend; otherwise dispatch on the call outcome.  On
`ok g`, set `total_gems` to `g` and report `increased` / `diff` against the
old value; on every failure return the last known `total_gems` with an error
message, leaving the state unchanged. -/
def get_balance (outcome : BalanceOutcome) (st : ServerState) :
    ServerState × BalanceResult :=
  if st.settings.main_session_token = "" then
    (st, { gems := 0, increased := none, diff := none,
           error := some "No session token configured" })
  else
    match outcome with
    | .ok g =>
        let old := st.settings.total_gems
        ({ st with settings := { st.settings with total_gems := g } },
         { gems := g
           increased := some (decide (old < g))
           diff := some (if old < g then g - old else 0)
           error := none })
    | .invalid =>
        (st, { gems := st.settings.total_gems, increased := none,
               diff := none, error := some "Invalid response" })
    | .timeout =>
        (st, { gems := st.settings.total_gems, increased := none,
               diff := none, error := some "Request timed out" })
    | .exn msg =>
        (st, { gems := st.settings.total_gems, increased := none,
               diff := none, error := some msg })

/-! ### `/api/generate` — `generate_account` -/

/-- The combined outcome of one iteration of the retry loop (one signup call
and, when reached, one exchange call), one constructor per control path of
the Python loop body:
* `emailExists` — signup answered with `error.message == 'EMAIL_EXISTS'`
  (the `continue` branch);
* `timeout` — either call raised `requests.Timeout`;
* `success tok gems` — signup yielded an `idToken` and the exchange answered
  `code == 1` with a truthy `data`; `tok` is `data.get('session_token', '')`
  and `gems` is `data.get('gems', 0)`;
* `failure msg` — any other raised exception: exchange answered without
  `code == 1`/truthy data (`msg = "Failed to initialize account"`), signup
  answered without an `idToken` (`msg` the provider error message or
  `"Signup failed"`), or a JSON parse error. -/
inductive AttemptOutcome where
  | emailExists
  | timeout
  | success (sessionToken : String) (gems : Int)
  | failure (msg : String)
deriving DecidableEq, Repr

/-- The JSON body returned by `generate_account`: success with the new
record, recorded failure with the failed record, or the generic
`"Max attempts reached"` exhaustion failure. -/
inductive GenResult where
  | success (account : Account)
  | failedRecorded (error : String) (account : Account)
  | maxAttempts
deriving DecidableEq, Repr

/-- `max_attempts = 10` in `generate_account`. -/
def max_attempts : Nat := 10

/-- The constant password fixed for all attempts of one invocation. -/
def gen_password : String := "testuad12334"

/-- One iteration of the body of the `for attempt in range(max_attempts)`
loop, for the outcome `o` of attempt number `attempt` with candidate email
`email` and record timestamp `ts`.  Returns `none` when the loop continues
to the next attempt, `some (st, r)` when the handler returns. -/
def attempt_step (email ts : String) (attempt : Nat) (o : AttemptOutcome)
    (st : ServerState) : Option (ServerState × GenResult) :=
  match o with
  | .emailExists => none
  | .timeout => none
  | .success tok gems =>
      let new_account : Account :=
        { email := email
          password := gen_password
          sessionToken := some tok
          gems := some gems
          timestamp := ts
          status := Status.success
          error := none }
      some
        ({ st with
            accounts := new_account :: st.accounts
            settings :=
              { st.settings with
                  generation_count := st.settings.generation_count + 1 } },
         .success new_account)
  | .failure msg =>
      if attempt = max_attempts - 1 then
        let failed_account : Account :=
          { email := email
            password := gen_password
            sessionToken := none
            gems := none
            timestamp := ts
            status := Status.failed
            error := some msg }
        some
          ({ st with accounts := failed_account :: st.accounts },
           .failedRecorded msg failed_account)
      else none

/-- The retry loop of `generate_account`, from attempt index `attempt` with
`remaining` iterations left (`attempt + remaining = max_attempts` at the top
call).  `emails i` is the candidate email drawn by `generate_random_email()`
on attempt `i`; `outcomes i` the combined network outcome of attempt `i`.
When the loop exhausts, the handler returns the generic failure with the
state untouched. -/
def generate_loop (emails : Nat → String) (outcomes : Nat → AttemptOutcome)
    (ts : String) : Nat → Nat → ServerState → ServerState × GenResult
  | _, 0, st => (st, .maxAttempts)
  | attempt, remaining + 1, st =>
      match attempt_step (emails attempt) ts attempt (outcomes attempt) st with
      | some res => res
      | none => generate_loop emails outcomes ts (attempt + 1) remaining st

/-- `generate_account` (the handler body, after the rate limiter admitted the
request): run the retry loop from attempt 0 with `max_attempts` iterations. -/
def generate_account (emails : Nat → String) (outcomes : Nat → AttemptOutcome)
    (ts : String) (st : ServerState) : ServerState × GenResult :=
  generate_loop emails outcomes ts 0 max_attempts st

/-! ### The `rate_limit` decorator

`/api/generate` is wrapped in `rate_limit(max_requests=5, window_seconds=60)`.
The ledger entry of one client (`rate_limits[client_ip]`, `[]` when the key
is absent) is a list of request times; times are modelled as rationals. -/

/-- The decision of the rate limiter for one request. -/
inductive RLDecision where
  | rejected (retry_after : ℚ)
  | allowed
deriving DecidableEq, Repr

/-- One pass of the `rate_limit` wrapper for one client at time `now`, on
that client's ledger entry: prune entries with `now - t >= window_seconds`,
reject with `retry_after = window_seconds` when at least `max_requests`
remain, otherwise append `now` and admit the request. -/
def rate_limit (max_requests : Nat) (window_seconds : ℚ) (now : ℚ)
    (entry : List ℚ) : List ℚ × RLDecision :=
  let pruned := entry.filter (fun t => now - t < window_seconds)
  if max_requests ≤ pruned.length then
    (pruned, .rejected window_seconds)
  else
    (pruned ++ [now], .allowed)

/-- The response of the rate-limited `/api/generate` endpoint: either the
429 rejection with its `retry_after` field, or the generator's result. -/
inductive GenResponse where
  | rateLimited (retry_after : ℚ)
  | result (r : GenResult)
deriving DecidableEq, Repr

/-- The full `/api/generate` endpoint for one client: run the
`rate_limit(5, 60)` wrapper on the client's ledger entry; on rejection the
wrapped handler is never entered (server state untouched), otherwise run
`generate_account`. -/
def generate_endpoint (emails : Nat → String) (outcomes : Nat → AttemptOutcome)
    (ts : String) (now : ℚ) (entry : List ℚ) (st : ServerState) :
    List ℚ × ServerState × GenResponse :=
  match rate_limit 5 60 now entry with
  | (entry2, .rejected retry) => (entry2, st, .rateLimited retry)
  | (entry2, .allowed) =>
      let (st2, r) := generate_account emails outcomes ts st
      (entry2, st2, .result r)

/-- Run a sequence of rate-limiter passes (one per request time, in order)
on a client's ledger entry, collecting the decisions. -/
def run_calls (max_requests : Nat) (window_seconds : ℚ) :
    List ℚ → List ℚ → List ℚ × List RLDecision
  | [], entry => (entry, [])
  | now :: rest, entry =>
      let (e1, d) := rate_limit max_requests window_seconds now entry
      let (e2, ds) := run_calls max_requests window_seconds rest e1
      (e2, d :: ds)

/-! ## Theorems -/

/-- Helper: an "Email: " line is an "Email:" line. -/
theorem isEmailLine_email (e : String) : isEmailLine ("Email: " ++ e) = true := by
  simp [isEmailLine, String.data_append, List.isPrefixOf]

/-- Helper: a "Password: " line is not an "Email:" line. -/
theorem isEmailLine_password (p : String) :
    isEmailLine ("Password: " ++ p) = false := by
  simp [isEmailLine, String.data_append, List.isPrefixOf]

/-- Helper: a "Session Token: " line is not an "Email:" line. -/
theorem isEmailLine_token (s : String) :
    isEmailLine ("Session Token: " ++ s) = false := by
  simp [isEmailLine, String.data_append, List.isPrefixOf]

/-- Helper: a "Gems: " line is not an "Email:" line. -/
theorem isEmailLine_gems (s : String) :
    isEmailLine ("Gems: " ++ s) = false := by
  simp [isEmailLine, String.data_append, List.isPrefixOf]

/-- Helper: the "---" separator is not an "Email:" line. -/
theorem isEmailLine_sep : isEmailLine "---" = false := by decide

/-- Helper: the "Email:" lines of the export block are in bijection with the
success records: counting them over `export_lines` gives `countSuccess`. -/
theorem countP_export_lines (accounts : List Account) :
    (export_lines accounts).countP isEmailLine = countSuccess accounts := by
  induction accounts with
  | nil => rfl
  | cons a l ih =>
      by_cases h : a.status = Status.success
      · simpa [export_lines, countSuccess, List.filter_cons, h,
          List.countP_cons, isEmailLine_email, isEmailLine_password,
          isEmailLine_token, isEmailLine_gems, isEmailLine_sep] using ih
      · simpa [export_lines, countSuccess, List.filter_cons, h] using ih

/-- Helper: records with status `failed` contribute no lines at all to the
export block. -/
theorem export_lines_failed_empty (accounts : List Account) :
    export_lines
      (accounts.filter (fun a => decide (a.status = Status.failed))) = [] := by
  induction accounts with
  | nil => rfl
  | cons a l ih =>
      cases ha : a.status <;>
        simp_all [export_lines, List.filter_cons, ha]

end FlaskServer

open FlaskServer

/-- C7: for every account sequence, the export output contains exactly one
"Email:" line per record with status `success` and none for `failed`
records, and its `count` field equals the number of success records. -/
theorem export_email_lines (accounts : List Account) :
    (export_lines accounts).countP isEmailLine = countSuccess accounts ∧
    (export_lines
        (accounts.filter (fun a => decide (a.status = Status.failed)))).countP
        isEmailLine = 0 ∧
    (export_accounts accounts).2 = countSuccess accounts := by
  refine ⟨countP_export_lines accounts, ?_, rfl⟩
  rw [export_lines_failed_empty accounts]
  rfl

/-- C4: `clear_accounts` empties the account list, resets
`generation_count` to 0, returns success, and is idempotent: clearing the
cleared state is a no-op producing the identical success result. -/
theorem clear_accounts_idempotent (st : ServerState) :
    (clear_accounts st).1.accounts = [] ∧
    (clear_accounts st).1.settings.generation_count = 0 ∧
    clear_accounts (clear_accounts st).1 = clear_accounts st ∧
    (clear_accounts st).2 = true :=
  ⟨rfl, rfl, rfl, rfl⟩

/-- C5: `get_balance` is a total function (it never raises — one value of
`BalanceResult` for every state and outcome): with no configured session
token it answers `gems 0` with the "No session token configured" annotation
and the state untouched (no backend call is modelled in that branch); on
timeout, an invalid response, or any other exception it answers the last
known `total_gems` with an error annotation, leaving `total_gems` (indeed
the whole state) unchanged. -/
theorem get_balance_never_raises (st : ServerState) (o : BalanceOutcome) :
    (st.settings.main_session_token = "" →
      get_balance o st =
        (st, { gems := 0, increased := none, diff := none,
               error := some "No session token configured" })) ∧
    (st.settings.main_session_token ≠ "" →
      (o = BalanceOutcome.timeout ∨ o = BalanceOutcome.invalid ∨
        ∃ m, o = BalanceOutcome.exn m) →
      (get_balance o st).1 = st ∧
      (get_balance o st).2.gems = st.settings.total_gems ∧
      (get_balance o st).2.error.isSome = true) := by
  constructor
  · intro h
    simp [get_balance, h]
  · intro h ho
    rcases ho with rfl | rfl | ⟨m, rfl⟩ <;> simp [get_balance, h]

/-- C5 witness: concrete instances of both branches. -/
theorem get_balance_never_raises_witness :
    get_balance BalanceOutcome.timeout init_state =
      (init_state, { gems := 0, increased := none, diff := none,
                     error := some "No session token configured" }) ∧
    (get_balance BalanceOutcome.timeout
        { init_state with settings := { init_settings with
            main_session_token := "tok", total_gems := 7 } }).2.gems = 7 :=
  ⟨(get_balance_never_raises init_state BalanceOutcome.timeout).1 rfl,
   ((get_balance_never_raises
      { init_state with settings := { init_settings with
          main_session_token := "tok", total_gems := 7 } }
      BalanceOutcome.timeout).2 (by decide) (Or.inl rfl)).2.1⟩

/-- C6: on a well-formed success response carrying gems value `g`,
`get_balance` sets `total_gems` to `g`, reports `gems g`, reports
`increased` true exactly when `g` exceeds the previous `total_gems`, and
reports the delta `g - old` when increased and `0` otherwise. -/
theorem get_balance_ok (st : ServerState) (g : Int)
    (h : st.settings.main_session_token ≠ "") :
    (get_balance (BalanceOutcome.ok g) st).1.settings.total_gems = g ∧
    (get_balance (BalanceOutcome.ok g) st).2.gems = g ∧
    ((get_balance (BalanceOutcome.ok g) st).2.increased = some true ↔
      st.settings.total_gems < g) ∧
    (get_balance (BalanceOutcome.ok g) st).2.diff =
      some (if st.settings.total_gems < g
            then g - st.settings.total_gems else 0) := by
  simp [get_balance, h]

/-- C6 witness: balance 3 with a response carrying 5 gems. -/
theorem get_balance_ok_witness :
    (get_balance (BalanceOutcome.ok 5)
      { init_state with settings := { init_settings with
          main_session_token := "tok", total_gems := 3 } }).2.diff = some 2 := by
  have h := get_balance_ok
    { init_state with settings := { init_settings with
        main_session_token := "tok", total_gems := 3 } } 5 (by decide)
  rw [h.2.2.2]
  decide

/-- The process-wide invariant of claim C3: `generation_count` equals the
number of success-status records in the account list. -/
def GenCountInv (st : ServerState) : Prop :=
  st.settings.generation_count = countSuccess st.accounts

/-- Helper: the loop body continues (returns `none`) on an "email exists"
collision, a timeout, or a non-final-attempt failure. -/
theorem attempt_step_none (email ts : String) (a : Nat) (o : AttemptOutcome)
    (st : ServerState)
    (h : o = AttemptOutcome.emailExists ∨ o = AttemptOutcome.timeout ∨
      ∃ m, o = AttemptOutcome.failure m ∧ a ≠ max_attempts - 1) :
    attempt_step email ts a o st = none := by
  rcases h with rfl | rfl | ⟨m, rfl, ha⟩ <;> simp [attempt_step, *]

/-- Helper: a continuing iteration consumes exactly one of the remaining
attempts and leaves the state untouched. -/
theorem generate_loop_skip_one (emails : Nat → String)
    (outcomes : Nat → AttemptOutcome) (ts : String) (a r : Nat)
    (st : ServerState)
    (h : attempt_step (emails a) ts a (outcomes a) st = none) :
    generate_loop emails outcomes ts a (r + 1) st
      = generate_loop emails outcomes ts (a + 1) r st := by
  simp [generate_loop, h]

/-- Helper: when every remaining iteration continues, the loop exhausts and
returns the generic failure with the state untouched. -/
theorem generate_loop_exhaust (emails : Nat → String)
    (outcomes : Nat → AttemptOutcome) (ts : String) :
    ∀ r a (st : ServerState),
      (∀ i, a ≤ i → i < a + r →
        attempt_step (emails i) ts i (outcomes i) st = none) →
      generate_loop emails outcomes ts a r st = (st, GenResult.maxAttempts) := by
  intro r
  induction r with
  | zero => intro a st _; rfl
  | succ r ih =>
      intro a st h
      rw [generate_loop_skip_one emails outcomes ts a r st
        (h a le_rfl (by omega))]
      exact ih (a + 1) st fun i hi hi2 => h i (by omega) (by omega)

/-- Helper: when no attempt before `N` succeeds, the loop reaches attempt
`N` with the state untouched. -/
theorem generate_loop_skip_to (emails : Nat → String)
    (outcomes : Nat → AttemptOutcome) (ts : String) (st : ServerState)
    (N : Nat) (hN : N < max_attempts)
    (hpre : ∀ i, i < N → ∀ tok g, outcomes i ≠ AttemptOutcome.success tok g) :
    ∀ r a, a + r = max_attempts → a ≤ N →
      generate_loop emails outcomes ts a r st
        = generate_loop emails outcomes ts N (max_attempts - N) st := by
  intro r
  induction r with
  | zero => intro a ha hale; omega
  | succ r ih =>
      intro a ha hale
      rcases eq_or_lt_of_le hale with rfl | hlt
      · have hr : max_attempts - a = r + 1 := by omega
        rw [hr]
      · have hstep : attempt_step (emails a) ts a (outcomes a) st = none := by
          refine attempt_step_none _ _ _ _ _ ?_
          cases ho : outcomes a with
          | emailExists => exact Or.inl rfl
          | timeout => exact Or.inr (Or.inl rfl)
          | success tok g => exact absurd ho (hpre a hlt tok g)
          | failure m => exact Or.inr (Or.inr ⟨m, rfl, by omega⟩)
        rw [generate_loop_skip_one emails outcomes ts a r st hstep]
        exact ih (a + 1) (by omega) hlt

/-- Helper: the canonical result of a generation whose first success is at
attempt `N`: the success record built from attempt `N` is prepended, the
counter incremented, and the loop returns it. -/
theorem generate_success_core (emails : Nat → String)
    (outcomes : Nat → AttemptOutcome) (ts : String) (st : ServerState)
    (N : Nat) (tok : String) (g : Int) (hN : N < max_attempts)
    (hpre : ∀ i, i < N → ∀ t G, outcomes i ≠ AttemptOutcome.success t G)
    (hs : outcomes N = AttemptOutcome.success tok g) :
    generate_account emails outcomes ts st =
      ({ st with
          accounts :=
            { email := emails N, password := gen_password,
              sessionToken := some tok, gems := some g, timestamp := ts,
              status := Status.success, error := none } :: st.accounts
          settings := { st.settings with
            generation_count := st.settings.generation_count + 1 } },
       GenResult.success
         { email := emails N, password := gen_password,
           sessionToken := some tok, gems := some g, timestamp := ts,
           status := Status.success, error := none }) := by
  unfold generate_account
  rw [generate_loop_skip_to emails outcomes ts st N hN hpre max_attempts 0
    (by omega) (Nat.zero_le N)]
  obtain ⟨k, hk⟩ : ∃ k, max_attempts - N = k + 1 := ⟨max_attempts - N - 1, by omega⟩
  rw [hk]
  simp [generate_loop, attempt_step, hs]

/-- Helper: a returning iteration preserves the generation-count invariant:
a success return increments the counter together with the success-record
count; a final-attempt failure return prepends a failed record, touching
neither. -/
theorem attempt_step_some_inv (email ts : String) (a : Nat)
    (o : AttemptOutcome) (st : ServerState) (res : ServerState × GenResult)
    (hstep : attempt_step email ts a o st = some res)
    (hinv : GenCountInv st) : GenCountInv res.1 := by
  cases o with
  | emailExists => simp [attempt_step] at hstep
  | timeout => simp [attempt_step] at hstep
  | success tok g =>
      simp [attempt_step] at hstep
      rw [← hstep]
      simp only [GenCountInv, countSuccess, List.filter_cons] at hinv ⊢
      simp [hinv]
  | failure m =>
      by_cases ha : a = max_attempts - 1
      · simp [attempt_step, ha] at hstep
        rw [← hstep]
        simp only [GenCountInv, countSuccess, List.filter_cons] at hinv ⊢
        simpa using hinv
      · simp [attempt_step, ha] at hstep

/-- Helper: the retry loop preserves the generation-count invariant. -/
theorem generate_loop_inv (emails : Nat → String)
    (outcomes : Nat → AttemptOutcome) (ts : String) :
    ∀ r a (st : ServerState), GenCountInv st →
      GenCountInv (generate_loop emails outcomes ts a r st).1 := by
  intro r
  induction r with
  | zero => intro a st h; exact h
  | succ r ih =>
      intro a st h
      cases hstep : attempt_step (emails a) ts a (outcomes a) st with
      | none =>
          rw [generate_loop_skip_one _ _ _ _ _ _ hstep]
          exact ih _ _ h
      | some res =>
          have heq : generate_loop emails outcomes ts a (r + 1) st = res := by
            simp [generate_loop, hstep]
          rw [heq]
          exact attempt_step_some_inv _ _ _ _ _ _ hstep h

/-- Helper: when the loop returns a recorded failure, the new state is the
old one with exactly that failed record prepended and the counter
untouched. -/
theorem generate_loop_failed (emails : Nat → String)
    (outcomes : Nat → AttemptOutcome) (ts : String) :
    ∀ r a (st st2 : ServerState) (msg : String) (acc : Account),
      generate_loop emails outcomes ts a r st
        = (st2, GenResult.failedRecorded msg acc) →
      st2.accounts = acc :: st.accounts ∧
      st2.settings.generation_count = st.settings.generation_count ∧
      acc.status = Status.failed := by
  intro r
  induction r with
  | zero =>
      intro a st st2 msg acc h
      simp [generate_loop] at h
  | succ r ih =>
      intro a st st2 msg acc h
      cases hstep : attempt_step (emails a) ts a (outcomes a) st with
      | none =>
          rw [generate_loop_skip_one _ _ _ _ _ _ hstep] at h
          exact ih _ _ _ _ _ h
      | some res =>
          have hres : res = (st2, GenResult.failedRecorded msg acc) := by
            have heq : generate_loop emails outcomes ts a (r + 1) st = res := by
              simp [generate_loop, hstep]
            rw [heq] at h
            exact h
          subst hres
          cases ho : outcomes a with
          | emailExists => simp [attempt_step, ho] at hstep
          | timeout => simp [attempt_step, ho] at hstep
          | success tok g =>
              rw [ho] at hstep
              simp [attempt_step] at hstep
          | failure m =>
              rw [ho] at hstep
              by_cases ha : a = max_attempts - 1
              · simp [attempt_step, ha] at hstep
                obtain ⟨h1, h2, h3⟩ := hstep
                refine ⟨?_, ?_, ?_⟩
                · rw [← h1, ← h3]
                · rw [← h1]
                · rw [← h3]
              · simp [attempt_step, ha] at hstep

/-- Helper: the loop result depends only on the candidate emails and call
outcomes of the attempts it can reach. -/
theorem generate_loop_congr (emails emails2 : Nat → String)
    (outcomes outcomes2 : Nat → AttemptOutcome) (ts : String) :
    ∀ r a (st : ServerState),
      (∀ i, a ≤ i → i < a + r →
        emails i = emails2 i ∧ outcomes i = outcomes2 i) →
      generate_loop emails outcomes ts a r st
        = generate_loop emails2 outcomes2 ts a r st := by
  intro r
  induction r with
  | zero => intro a st _; rfl
  | succ r ih =>
      intro a st h
      obtain ⟨he, ho⟩ := h a le_rfl (by omega)
      have hrec := ih (a + 1) st fun i h1 h2 => h i (by omega) (by omega)
      simp only [generate_loop, he, ho]
      cases attempt_step (emails2 a) ts a (outcomes2 a) st with
      | some res => rfl
      | none => exact hrec

/-- C10: `handle_settings` (POST) writes only `main_session_token` and
`local_id`, each exactly when the corresponding key is present in the body;
`total_gems`, `generation_count` and the account list are untouched for
every body, including bodies carrying `total_gems` or `generation_count`
keys. -/
theorem handle_settings_frame (body : SettingsBody) (st : ServerState) :
    (handle_settings body st).settings.total_gems = st.settings.total_gems ∧
    (handle_settings body st).settings.generation_count
      = st.settings.generation_count ∧
    (handle_settings body st).accounts = st.accounts ∧
    (handle_settings body st).settings.main_session_token
      = body.main_session_token.getD st.settings.main_session_token ∧
    (handle_settings body st).settings.local_id
      = body.local_id.getD st.settings.local_id := by
  rcases body with ⟨mt, li, tg, gc⟩
  cases mt <;> cases li <;> simp [handle_settings]

/-- C1: when the identity provider reports "email exists" on all 10
attempts, `generate_account` returns the generic "Max attempts reached"
failure and the state — in particular the account list — is untouched: no
record, success or failed, is appended. -/
theorem generate_all_email_exists (emails : Nat → String)
    (outcomes : Nat → AttemptOutcome) (ts : String) (st : ServerState)
    (h : ∀ i, i < max_attempts → outcomes i = AttemptOutcome.emailExists) :
    generate_account emails outcomes ts st = (st, GenResult.maxAttempts) := by
  unfold generate_account
  apply generate_loop_exhaust
  intro i h0 hi
  exact attempt_step_none _ _ _ _ _ (Or.inl (h i (by omega)))

/-- C1 witness: ten straight collisions from the initial state. -/
theorem generate_all_email_exists_witness :
    generate_account (fun _ => "e") (fun _ => AttemptOutcome.emailExists)
      "t" init_state = (init_state, GenResult.maxAttempts) :=
  generate_all_email_exists _ _ _ _ fun _ _ => rfl

/-- C2: when signup and exchange first succeed on attempt `N`
(0-indexed, `N < 10`), exactly one success record is prepended to the head
of the account list, `generation_count` is incremented by exactly 1, the
invocation returns that record as its success result, and the result does
not depend on anything after attempt `N` (no further attempts are made) —
all regardless of `N`. -/
theorem generate_success_at (emails : Nat → String)
    (outcomes : Nat → AttemptOutcome) (ts : String) (st : ServerState)
    (N : Nat) (tok : String) (g : Int) (hN : N < max_attempts)
    (hpre : ∀ i, i < N → ∀ t G, outcomes i ≠ AttemptOutcome.success t G)
    (hs : outcomes N = AttemptOutcome.success tok g) :
    (generate_account emails outcomes ts st =
      ({ st with
          accounts :=
            { email := emails N, password := gen_password,
              sessionToken := some tok, gems := some g, timestamp := ts,
              status := Status.success, error := none } :: st.accounts
          settings := { st.settings with
            generation_count := st.settings.generation_count + 1 } },
       GenResult.success
         { email := emails N, password := gen_password,
           sessionToken := some tok, gems := some g, timestamp := ts,
           status := Status.success, error := none })) ∧
    ∀ emails2 outcomes2,
      (∀ i, i ≤ N → emails2 i = emails i ∧ outcomes2 i = outcomes i) →
      generate_account emails2 outcomes2 ts st
        = generate_account emails outcomes ts st := by
  refine ⟨generate_success_core emails outcomes ts st N tok g hN hpre hs, ?_⟩
  intro emails2 outcomes2 hagree
  have hpre2 : ∀ i, i < N → ∀ t G, outcomes2 i ≠ AttemptOutcome.success t G := by
    intro i hi t G
    rw [(hagree i (le_of_lt hi)).2]
    exact hpre i hi t G
  have hs2 : outcomes2 N = AttemptOutcome.success tok g := by
    rw [(hagree N le_rfl).2]; exact hs
  rw [generate_success_core emails2 outcomes2 ts st N tok g hN hpre2 hs2,
    generate_success_core emails outcomes ts st N tok g hN hpre hs,
    (hagree N le_rfl).1]

/-- C2 witness: success on the very first attempt from the initial state. -/
theorem generate_success_at_witness :
    generate_account (fun _ => "e")
      (fun _ => AttemptOutcome.success "s" 3) "t" init_state =
      ({ init_state with
          accounts :=
            [{ email := "e", password := gen_password,
               sessionToken := some "s", gems := some 3, timestamp := "t",
               status := Status.success, error := none }]
          settings := { init_settings with generation_count := 1 } },
       GenResult.success
         { email := "e", password := gen_password,
           sessionToken := some "s", gems := some 3, timestamp := "t",
           status := Status.success, error := none }) :=
  (generate_success_at (fun _ => "e") (fun _ => AttemptOutcome.success "s" 3)
    "t" init_state 0 "s" 3 (by decide) (fun i hi => by omega) rfl).1

/-- C3: the invariant "`generation_count` equals the number of
success-status records since the last clear" holds initially and is
preserved by every operation — generate, clear, settings update and
balance poll; in particular a terminally failed generation prepends a
failed record while leaving `generation_count` unchanged. -/
theorem generation_count_invariant :
    GenCountInv init_state ∧
    (∀ emails outcomes ts st, GenCountInv st →
      GenCountInv (generate_account emails outcomes ts st).1) ∧
    (∀ st, GenCountInv st → GenCountInv (clear_accounts st).1) ∧
    (∀ body st, GenCountInv st → GenCountInv (handle_settings body st)) ∧
    (∀ o st, GenCountInv st → GenCountInv (get_balance o st).1) ∧
    (∀ emails outcomes ts st msg acc,
      (generate_account emails outcomes ts st).2
        = GenResult.failedRecorded msg acc →
      (generate_account emails outcomes ts st).1.accounts
        = acc :: st.accounts ∧
      (generate_account emails outcomes ts st).1.settings.generation_count
        = st.settings.generation_count ∧
      acc.status = Status.failed) := by
  refine ⟨rfl, ?_, ?_, ?_, ?_, ?_⟩
  · intro emails outcomes ts st h
    exact generate_loop_inv emails outcomes ts max_attempts 0 st h
  · intro st _
    rfl
  · intro body st h
    rcases body with ⟨mt, li, tg, gc⟩
    cases mt <;> cases li <;> simpa [GenCountInv, handle_settings] using h
  · intro o st h
    rcases o with g | _ | _ | m <;>
      simp [GenCountInv, get_balance] at h ⊢ <;>
      split <;> simpa using h
  · intro emails outcomes ts st msg acc h
    exact generate_loop_failed emails outcomes ts max_attempts 0 st _ msg acc
      (by rw [← h]; rfl)

/-- C3 witness: the invariant survives a clear from the initial state. -/
theorem generation_count_invariant_witness :
    GenCountInv (clear_accounts init_state).1 :=
  generation_count_invariant.2.2.1 init_state rfl

/-- C9: `generate_account` performs at most 10 attempts — its result (a
total function of its oracles, hence terminating) depends only on the
candidate emails and network outcomes of attempts 0 through 9 — and every
non-terminal iteration (collision, timeout, or failure before the final
attempt) consumes exactly one of the remaining bounded attempts. -/
theorem generate_bounded_attempts (emails : Nat → String)
    (outcomes : Nat → AttemptOutcome) (ts : String) (st : ServerState) :
    (∀ emails2 outcomes2,
      (∀ i, i < max_attempts →
        emails i = emails2 i ∧ outcomes i = outcomes2 i) →
      generate_account emails outcomes ts st
        = generate_account emails2 outcomes2 ts st) ∧
    (∀ a r,
      (outcomes a = AttemptOutcome.emailExists ∨
        outcomes a = AttemptOutcome.timeout ∨
        ∃ m, outcomes a = AttemptOutcome.failure m ∧ a ≠ max_attempts - 1) →
      generate_loop emails outcomes ts a (r + 1) st
        = generate_loop emails outcomes ts (a + 1) r st) := by
  constructor
  · intro emails2 outcomes2 h
    exact generate_loop_congr emails emails2 outcomes outcomes2 ts
      max_attempts 0 st fun i h0 hi => h i (by omega)
  · intro a r h
    exact generate_loop_skip_one emails outcomes ts a r st
      (attempt_step_none _ _ _ _ _ h)

/-- C9 witness: concrete instances of both parts at collision outcomes. -/
theorem generate_bounded_attempts_witness :
    (generate_account (fun _ => "e") (fun _ => AttemptOutcome.emailExists)
        "t" init_state
      = generate_account (fun _ => "e") (fun _ => AttemptOutcome.emailExists)
        "t" init_state) ∧
    (generate_loop (fun _ => "e") (fun _ => AttemptOutcome.emailExists)
        "t" 0 1 init_state
      = generate_loop (fun _ => "e") (fun _ => AttemptOutcome.emailExists)
        "t" 1 0 init_state) :=
  ⟨(generate_bounded_attempts (fun _ => "e")
      (fun _ => AttemptOutcome.emailExists) "t" init_state).1 _ _
      (fun _ _ => ⟨rfl, rfl⟩),
   (generate_bounded_attempts (fun _ => "e")
      (fun _ => AttemptOutcome.emailExists) "t" init_state).2 0 0
      (Or.inl rfl)⟩

/-- C8: after 5 admitted `/api/generate` calls from one client whose times
all lie within the trailing 60-second window, the 6th call from that client
within the window is rejected with `retry_after` equal to the window size
(60), and the generation workflow is not entered: the server state is
returned untouched. -/
theorem rate_limit_sixth_rejected (t1 t2 t3 t4 t5 t6 : ℚ)
    (h12 : t1 ≤ t2) (h23 : t2 ≤ t3) (h34 : t3 ≤ t4) (h45 : t4 ≤ t5)
    (h56 : t5 ≤ t6) (hwin : t6 - t1 < 60) :
    run_calls 5 60 [t1, t2, t3, t4, t5] [] =
      ([t1, t2, t3, t4, t5],
       [RLDecision.allowed, RLDecision.allowed, RLDecision.allowed,
        RLDecision.allowed, RLDecision.allowed]) ∧
    rate_limit 5 60 t6 [t1, t2, t3, t4, t5]
      = ([t1, t2, t3, t4, t5], RLDecision.rejected 60) ∧
    ∀ emails outcomes ts st,
      generate_endpoint emails outcomes ts t6 [t1, t2, t3, t4, t5] st
        = ([t1, t2, t3, t4, t5], st, GenResponse.rateLimited 60) := by
  have e21 : t2 - t1 < 60 := by linarith
  have e31 : t3 - t1 < 60 := by linarith
  have e32 : t3 - t2 < 60 := by linarith
  have e41 : t4 - t1 < 60 := by linarith
  have e42 : t4 - t2 < 60 := by linarith
  have e43 : t4 - t3 < 60 := by linarith
  have e51 : t5 - t1 < 60 := by linarith
  have e52 : t5 - t2 < 60 := by linarith
  have e53 : t5 - t3 < 60 := by linarith
  have e54 : t5 - t4 < 60 := by linarith
  have e62 : t6 - t2 < 60 := by linarith
  have e63 : t6 - t3 < 60 := by linarith
  have e64 : t6 - t4 < 60 := by linarith
  have e65 : t6 - t5 < 60 := by linarith
  have h2 : rate_limit 5 60 t6 [t1, t2, t3, t4, t5]
      = ([t1, t2, t3, t4, t5], RLDecision.rejected 60) := by
    simp [rate_limit, List.filter_cons, hwin, e62, e63, e64, e65]
  refine ⟨?_, h2, ?_⟩
  · simp [run_calls, rate_limit, List.filter_cons, e21, e31, e32, e41, e42,
      e43, e51, e52, e53, e54]
  · intro emails outcomes ts st
    simp [generate_endpoint, h2]

/-- C8 witness: six simultaneous calls. -/
theorem rate_limit_sixth_rejected_witness :
    rate_limit 5 60 0 [0, 0, 0, 0, 0] = ([0, 0, 0, 0, 0],
      RLDecision.rejected 60) :=
  (rate_limit_sixth_rejected 0 0 0 0 0 0 le_rfl le_rfl le_rfl le_rfl le_rfl
    (by norm_num)).2.1
